import Mathlib

/-!
# Money-transfer saga: a shallow embedding of `MoneyTransfer` (workflow.go)

The workflow function `MoneyTransfer` sequences three activities (Withdraw,
Deposit, Refund).  Each `workflow.ExecuteActivity(ctx, A, input).Get(ctx, &out)`
is an interaction with the execution substrate; it is embedded as a
state-passing call that yields the terminal outcome of the activity (an error
or the string written to `out`) and the next state of the substrate.
-/

namespace app

/-! ## Data model -/

/-- The transfer request, as built in start/main.go lines 28-33. -/
structure PaymentDetails where
  SourceAccount : String
  TargetAccount : String
  Amount : Int
  ReferenceID : String
  deriving DecidableEq, Repr

/-- Go `error` values that occur in the workflow: a failure signalled by an
activity (its kind, i.e. the error type name the retry policy classifies on,
and its message), or the value built by `fmt.Errorf` with a `%w` verb. -/
inductive GoError where
  | failure (kind : String) (message : String)
  | wrapError (msg : String) (err : GoError)
  deriving DecidableEq, Repr

/-- The method `Error()`: the message of an error. -/
def GoError.Error : GoError → String
  | .failure _ message => message
  | .wrapError msg _ => msg

/-- The method `Unwrap()` as used by `errors.Unwrap`: the wrapped error. -/
def GoError.Unwrap : GoError → Option GoError
  | .failure _ _ => none
  | .wrapError _ err => some err

/-- The type name of an error, on which `NonRetryableErrorTypes` is matched. -/
def GoError.kind : GoError → String
  | .failure kind _ => kind
  | .wrapError _ _ => "wrapError"

/-- The three registered activities (worker/main.go lines 30-32). -/
inductive Activity where
  | Withdraw
  | Deposit
  | Refund
  deriving DecidableEq, Repr

/-- One second as a `time.Duration` (nanoseconds). -/
def Second : Nat := 1000000000

/-- One minute as a `time.Duration`. -/
def Minute : Nat := 60 * Second

/-- The record `temporal.RetryPolicy`; durations are in nanoseconds. The
coefficient is a float64 in the source; every value it takes here is a small
integer, so it is carried as a rational. -/
structure RetryPolicy where
  InitialInterval : Nat
  BackoffCoefficient : ℚ
  MaximumInterval : Nat
  MaximumAttempts : Nat
  NonRetryableErrorTypes : List String
  deriving DecidableEq

/-- The record `workflow.ActivityOptions` (the fields the workflow sets). -/
structure ActivityOptions where
  StartToCloseTimeout : Nat
  Policy : Option RetryPolicy
  deriving DecidableEq

/-- workflow.go lines 18-24. -/
def retrypolicy : RetryPolicy :=
  { InitialInterval := Second
    BackoffCoefficient := 2
    MaximumInterval := 100 * Second
    MaximumAttempts := 0
    NonRetryableErrorTypes := ["InvalidAccountError", "InsufficientFundsError"] }

/-- workflow.go lines 26-32. -/
def options : ActivityOptions :=
  { StartToCloseTimeout := Minute
    Policy := some retrypolicy }

/-! ## The workflow -/

/-- The call `workflow.ExecuteActivity(ctx, A, input).Get(ctx, &out)` where
`ctx` carries the activity options: from a state of the substrate it yields the
terminal outcome (`.error err`, or `.ok out`) and the next state. -/
abbrev ExecuteActivity (σ : Type) :=
  ActivityOptions → Activity → PaymentDetails → σ → Except GoError String × σ

/-- workflow.go line 53-54:
`fmt.Errorf("Deposit: failed to deposit money into %v: %v. Money could not be returned to %v: %w",
input.TargetAccount, depositErr, input.SourceAccount, refundErr)`. -/
def refundFailedError (input : PaymentDetails) (depositErr refundErr : GoError) : GoError :=
  .wrapError
    ("Deposit: failed to deposit money into " ++ input.TargetAccount ++ ": " ++
      depositErr.Error ++ ". Money could not be returned to " ++ input.SourceAccount ++ ": " ++
      refundErr.Error)
    refundErr

/-- workflow.go line 57-58:
`fmt.Errorf("Deposit: failed to deposit money into %v: Money returned to %v: %w",
input.TargetAccount, input.SourceAccount, depositErr)`. -/
def depositFailedError (input : PaymentDetails) (depositErr : GoError) : GoError :=
  .wrapError
    ("Deposit: failed to deposit money into " ++ input.TargetAccount ++
      ": Money returned to " ++ input.SourceAccount ++ ": " ++ depositErr.Error)
    depositErr

/-- workflow.go line 61:
`fmt.Sprintf("Transfer complete (transaction IDs: %s, %s)", withdrawOutput, depositOutput)`. -/
def transferComplete (withdrawOutput depositOutput : String) : String :=
  "Transfer complete (transaction IDs: " ++ withdrawOutput ++ ", " ++ depositOutput ++ ")"

/-- The function `MoneyTransfer` (workflow.go lines 15-63). The Go result pair
`(string, error)` is `String × Option GoError`, with `none` for `nil`. -/
def MoneyTransfer {σ : Type} (exec : ExecuteActivity σ) (input : PaymentDetails) (s : σ) :
    (String × Option GoError) × σ :=
  -- ctx = workflow.WithActivityOptions(ctx, options)
  let ctx := options
  -- Withdraw money.
  match exec ctx .Withdraw input s with
  | (.error withdrawErr, s1) => (("", some withdrawErr), s1)
  | (.ok withdrawOutput, s1) =>
    -- Deposit money.
    match exec ctx .Deposit input s1 with
    | (.error depositErr, s2) =>
      -- The deposit failed; put money back in original account.
      match exec ctx .Refund input s2 with
      | (.error refundErr, s3) => (("", some (refundFailedError input depositErr refundErr)), s3)
      | (.ok _, s3) => (("", some (depositFailedError input depositErr)), s3)
    | (.ok depositOutput, s2) => ((transferComplete withdrawOutput depositOutput, none), s2)

/-! ## A substrate that records the invocations it receives -/

/-- One activity invocation as the substrate sees it. -/
structure Invocation where
  activity : Activity
  opts : ActivityOptions
  input : PaymentDetails
  deriving DecidableEq

/-- The terminal outcome of each step, as decided outside the workflow. -/
abbrev Outcomes := Activity → PaymentDetails → Except GoError String

/-- A substrate whose state is the log of invocations made so far. -/
def recording (outcome : Outcomes) : ExecuteActivity (List Invocation) :=
  fun opts a input log => (outcome a input, log ++ [⟨a, opts, input⟩])

/-- One run of the workflow against given terminal outcomes, from an empty log. -/
def run (outcome : Outcomes) (input : PaymentDetails) : (String × Option GoError) × List Invocation :=
  MoneyTransfer (recording outcome) input []

/-- The activities invoked during a run, in order. -/
def trace (outcome : Outcomes) (input : PaymentDetails) : List Activity :=
  (run outcome input).2.map Invocation.activity

/-- How many times an activity was invoked during a run. -/
def calls (a : Activity) (outcome : Outcomes) (input : PaymentDetails) : Nat :=
  (trace outcome input).count a

/-- The text `part` occurs in `s`. -/
def Contains (s part : String) : Prop := part.data <:+: s.data

instance (s part : String) : Decidable (Contains s part) :=
  inferInstanceAs (Decidable (part.data <:+: s.data))

/-- The request submitted by start/main.go lines 28-33. -/
def mainInput : PaymentDetails :=
  { SourceAccount := "85-150"
    TargetAccount := "43-812"
    Amount := 250
    ReferenceID := "12345" }

/-! ## Retry policy application -/

/-- Modelled from the spec: the retry wrapper of the execution substrate, which
is not among the sources (§4.3). What is known of one step execution under a
retry policy after a bounded number of attempts has been observed: either the
wrapped call has returned its terminal outcome, or it is still retrying.
`attempts` counts the attempts made and `waits` lists the backoff waits served,
oldest first. -/
inductive RetryRun where
  | returned (result : Except GoError String) (attempts : Nat) (waits : List Nat)
  | retrying (attempts : Nat) (waits : List Nat)

/-- The number of attempts made in a retry run. -/
def RetryRun.attempts : RetryRun → Nat
  | .returned _ n _ => n
  | .retrying n _ => n

/-- The backoff waits served in a retry run. -/
def RetryRun.waits : RetryRun → List Nat
  | .returned _ _ ws => ws
  | .retrying _ ws => ws

/-- Modelled from the spec: the retry wrapper of the execution substrate, which
is not among the sources (§4.3: "multiply the interval by the backoff
coefficient (capped at the maximum interval)"). The interval that follows
`interval`. -/
def nextInterval (p : RetryPolicy) (interval : Nat) : Nat :=
  min (Nat.floor ((interval : ℚ) * p.BackoffCoefficient)) p.MaximumInterval

/-- Modelled from the spec: the retry wrapper of the execution substrate, which
is not among the sources (§4.3: retry "unless the maximum attempt count is
reached (0 means never stop retrying on retryable failures)"). Whether attempt
number `n` was the last one the policy allows. -/
def attemptsExhausted (p : RetryPolicy) (n : Nat) : Bool :=
  p.MaximumAttempts != 0 && decide (p.MaximumAttempts ≤ n)

/-- Modelled from the spec: the retry wrapper of the execution substrate, which
is not among the sources (§4.3 Retry Policy Application). `attempt n` is the
result of the n-th attempt of the step (n = 1, 2, ...). On a failure whose kind
is in the non-retryable set the wrapped call returns the failure immediately;
on any other failure it waits the current interval, multiplies the interval by
the coefficient (capped at the maximum), increments the attempt counter and
retries unless the maximum attempt count is reached. `fuel` bounds the number
of attempts observed; when it runs out the run is reported as still retrying. -/
def retryLoop (p : RetryPolicy) (attempt : Nat → Except GoError String) :
    (fuel : Nat) → (n : Nat) → (interval : Nat) → (waits : List Nat) → RetryRun
  | 0, n, _, waits => .retrying (n - 1) waits
  | fuel + 1, n, interval, waits =>
    match attempt n with
    | .ok id => .returned (.ok id) n waits
    | .error e =>
      if e.kind ∈ p.NonRetryableErrorTypes then .returned (.error e) n waits
      else if attemptsExhausted p n then .returned (.error e) n waits
      else retryLoop p attempt fuel (n + 1) (nextInterval p interval) (waits ++ [interval])

/-- Modelled from the spec: the retry wrapper of the execution substrate, which
is not among the sources (§4.3). One step execution under policy `p`, observed
for `fuel` attempts: the first attempt is attempt 1 and the first wait is the
initial interval. -/
def executeWithRetry (p : RetryPolicy) (attempt : Nat → Except GoError String) (fuel : Nat) :
    RetryRun :=
  retryLoop p attempt fuel 1 p.InitialInterval []

/-- A step whose every attempt fails with an error that policy `p` retries. -/
def AlwaysRetryable (p : RetryPolicy) (attempt : Nat → Except GoError String) : Prop :=
  ∀ n, ∃ e, attempt n = .error e ∧ e.kind ∉ p.NonRetryableErrorTypes

/-! ## Requests -/

/-- Modelled from the spec: the validity of a request, which no source file
checks (§3: the amount is a positive integer). -/
def PaymentDetails.Valid (input : PaymentDetails) : Prop := 0 < input.Amount

instance (input : PaymentDetails) : Decidable input.Valid :=
  inferInstanceAs (Decidable (0 < input.Amount))

/-! ## Scenarios -/

/-- Terminal outcomes given step by step: those of Withdraw, Deposit and Refund. -/
def scenario (w d r : Except GoError String) : Outcomes :=
  fun a _ =>
    match a with
    | .Withdraw => w
    | .Deposit => d
    | .Refund => r

/-- An insufficient-funds failure, one of the two non-retryable kinds. -/
def insufficientFunds : GoError := .failure "InsufficientFundsError" "insufficient funds"

/-- An invalid-account failure, the other non-retryable kind. -/
def invalidAccount : GoError := .failure "InvalidAccountError" "invalid account"

/-- A failure of a kind outside the non-retryable set. -/
def unavailable : GoError := .failure "TimeoutError" "service unavailable"

/-- A step whose every attempt fails with the retryable failure `unavailable`. -/
def alwaysUnavailable : Nat → Except GoError String := fun _ => .error unavailable

/-- A step whose first attempt fails with `e` and whose later attempts succeed. -/
def failsOnce (e : GoError) : Nat → Except GoError String :=
  fun n => if n = 1 then .error e else .ok "TX"

/-! ## Properties of the workflow -/

section run_lemmas

theorem run_withdraw_error {outcome : Outcomes} {input : PaymentDetails} {e : GoError}
    (hW : outcome .Withdraw input = .error e) :
    run outcome input = (("", some e), [⟨.Withdraw, options, input⟩]) := by
  simp [run, MoneyTransfer, recording, hW]

theorem run_refund_error {outcome : Outcomes} {input : PaymentDetails} {w : String}
    {d r : GoError} (hW : outcome .Withdraw input = .ok w)
    (hD : outcome .Deposit input = .error d) (hR : outcome .Refund input = .error r) :
    run outcome input =
      (("", some (refundFailedError input d r)),
        [⟨.Withdraw, options, input⟩, ⟨.Deposit, options, input⟩, ⟨.Refund, options, input⟩]) := by
  simp [run, MoneyTransfer, recording, hW, hD, hR]

theorem run_refund_ok {outcome : Outcomes} {input : PaymentDetails} {w id : String}
    {d : GoError} (hW : outcome .Withdraw input = .ok w)
    (hD : outcome .Deposit input = .error d) (hR : outcome .Refund input = .ok id) :
    run outcome input =
      (("", some (depositFailedError input d)),
        [⟨.Withdraw, options, input⟩, ⟨.Deposit, options, input⟩, ⟨.Refund, options, input⟩]) := by
  simp [run, MoneyTransfer, recording, hW, hD, hR]

theorem run_deposit_ok {outcome : Outcomes} {input : PaymentDetails} {w d : String}
    (hW : outcome .Withdraw input = .ok w) (hD : outcome .Deposit input = .ok d) :
    run outcome input =
      ((transferComplete w d, none), [⟨.Withdraw, options, input⟩, ⟨.Deposit, options, input⟩]) := by
  simp [run, MoneyTransfer, recording, hW, hD]

theorem contains_middle (a p b : String) : Contains (a ++ p ++ b) p :=
  ⟨a.data, b.data, by simp [String.data_append]⟩

theorem contains_end (a p : String) : Contains (a ++ p) p :=
  ⟨a.data, [], by simp [String.data_append]⟩

end run_lemmas

/-- C1: when Withdraw terminally fails with `e`, the workflow returns the empty
result together with exactly `e`, and Deposit and Refund are invoked zero times. -/
theorem withdraw_failure_surfaces_unchanged (outcome : Outcomes) (input : PaymentDetails)
    (e : GoError) (hW : outcome .Withdraw input = .error e) :
    (run outcome input).1 = ("", some e) ∧
      calls .Deposit outcome input = 0 ∧ calls .Refund outcome input = 0 := by
  simp [calls, trace, run_withdraw_error hW]

theorem withdraw_failure_surfaces_unchanged_witness :
    scenario (.error invalidAccount) (.ok "D1") (.ok "R1") .Withdraw mainInput
        = .error invalidAccount ∧
      (run (scenario (.error invalidAccount) (.ok "D1") (.ok "R1")) mainInput).1
        = ("", some invalidAccount) ∧
      calls .Deposit (scenario (.error invalidAccount) (.ok "D1") (.ok "R1")) mainInput = 0 ∧
      calls .Refund (scenario (.error invalidAccount) (.ok "D1") (.ok "R1")) mainInput = 0 :=
  ⟨rfl, withdraw_failure_surfaces_unchanged _ mainInput invalidAccount rfl⟩

/-- C2, as stated, fails: with Withdraw succeeding and Deposit failing with
insufficient funds on the request of start/main.go, the refund transaction ids
"R-1" and "R-2" lead to the very same returned values, the returned error
message does not contain the refund id, and so no reading of the returned
values recovers the refund transaction id. -/
theorem refund_id_not_in_outcome :
    (run (scenario (.ok "W-1") (.error insufficientFunds) (.ok "R-1")) mainInput).1
        = (run (scenario (.ok "W-1") (.error insufficientFunds) (.ok "R-2")) mainInput).1 ∧
      (run (scenario (.ok "W-1") (.error insufficientFunds) (.ok "R-1")) mainInput).1
        = ("", some (.wrapError
            "Deposit: failed to deposit money into 43-812: Money returned to 85-150: insufficient funds"
            insufficientFunds)) ∧
      ¬ Contains
          "Deposit: failed to deposit money into 43-812: Money returned to 85-150: insufficient funds"
          "R-1" ∧
      ¬ ∃ carried : String × Option GoError → String, ∀ r : String,
          carried (run (scenario (.ok "W-1") (.error insufficientFunds) (.ok r)) mainInput).1 = r := by
  refine ⟨by decide, by decide, ?_, ?_⟩
  · set_option maxRecDepth 100000 in decide
  rintro ⟨carried, h⟩
  have h1 := h "R-1"
  have h2 := h "R-2"
  have e : (run (scenario (.ok "W-1") (.error insufficientFunds) (.ok "R-1")) mainInput).1
      = (run (scenario (.ok "W-1") (.error insufficientFunds) (.ok "R-2")) mainInput).1 := by
    decide
  rw [e, h2] at h1
  exact absurd h1 (by decide)

/-- C2, amended: when Withdraw succeeds, Deposit terminally fails with `d` and
Refund succeeds with id `r`, the workflow returns the empty result and an error
that wraps `d`, with the message "Deposit: failed to deposit money into
TARGET: Money returned to SOURCE: " followed by the text of `d`; the returned
values are the same whatever the refund transaction id is. -/
theorem compensated_failure_wraps_deposit_error (outcome : Outcomes) (input : PaymentDetails)
    (w r : String) (d : GoError) (hW : outcome .Withdraw input = .ok w)
    (hD : outcome .Deposit input = .error d) (hR : outcome .Refund input = .ok r) :
    ∃ err, (run outcome input).1 = ("", some err) ∧ err.Unwrap = some d ∧
      err.Error = "Deposit: failed to deposit money into " ++ input.TargetAccount ++
        ": Money returned to " ++ input.SourceAccount ++ ": " ++ d.Error ∧
      ∀ r2 : String, (run (scenario (.ok w) (.error d) (.ok r2)) input).1 = ("", some err) := by
  refine ⟨depositFailedError input d, ?_, rfl, rfl, ?_⟩
  · rw [run_refund_ok hW hD hR]
  · intro r2
    rw [@run_refund_ok (scenario (.ok w) (.error d) (.ok r2)) input w r2 d rfl rfl rfl]

theorem compensated_failure_wraps_deposit_error_witness :
    ∃ err, (run (scenario (.ok "W-1") (.error insufficientFunds) (.ok "R-1")) mainInput).1
        = ("", some err) ∧ err.Unwrap = some insufficientFunds ∧
      err.Error = "Deposit: failed to deposit money into " ++ mainInput.TargetAccount ++
        ": Money returned to " ++ mainInput.SourceAccount ++ ": " ++ insufficientFunds.Error ∧
      ∀ r2 : String,
        (run (scenario (.ok "W-1") (.error insufficientFunds) (.ok r2)) mainInput).1
          = ("", some err) :=
  compensated_failure_wraps_deposit_error
    (scenario (.ok "W-1") (.error insufficientFunds) (.ok "R-1")) mainInput "W-1" "R-1"
    insufficientFunds rfl rfl rfl

/-- C3: when Withdraw succeeds, Deposit terminally fails with `d` and Refund
terminally fails with `r`, the workflow returns the empty result and an error
whose message contains the text of `d` and the text of `r` and which wraps `r`. -/
theorem double_failure_carries_both_errors (outcome : Outcomes) (input : PaymentDetails)
    (w : String) (d r : GoError) (hW : outcome .Withdraw input = .ok w)
    (hD : outcome .Deposit input = .error d) (hR : outcome .Refund input = .error r) :
    ∃ err, (run outcome input).1 = ("", some err) ∧
      Contains err.Error d.Error ∧ Contains err.Error r.Error ∧ err.Unwrap = some r := by
  refine ⟨refundFailedError input d r, ?_, ?_, ?_, rfl⟩
  · rw [run_refund_error hW hD hR]
  · exact ⟨("Deposit: failed to deposit money into " ++ input.TargetAccount ++ ": ").data,
      (". Money could not be returned to " ++ input.SourceAccount ++ ": " ++ r.Error).data,
      by simp [refundFailedError, GoError.Error, String.data_append]⟩
  · exact contains_end _ _

theorem double_failure_carries_both_errors_witness :
    ∃ err, (run (scenario (.ok "W-1") (.error insufficientFunds) (.error invalidAccount))
        mainInput).1 = ("", some err) ∧
      Contains err.Error insufficientFunds.Error ∧ Contains err.Error invalidAccount.Error ∧
      err.Unwrap = some invalidAccount :=
  double_failure_carries_both_errors
    (scenario (.ok "W-1") (.error insufficientFunds) (.error invalidAccount)) mainInput "W-1"
    insufficientFunds invalidAccount rfl rfl rfl

/-- C4: when Withdraw succeeds with id `w` and Deposit succeeds with id `d`,
the workflow returns no error and exactly the string "Transfer complete
(transaction IDs: w, d)", withdraw id first, and Refund is not invoked. -/
theorem completed_names_both_ids (outcome : Outcomes) (input : PaymentDetails) (w d : String)
    (hW : outcome .Withdraw input = .ok w) (hD : outcome .Deposit input = .ok d) :
    (run outcome input).1
        = ("Transfer complete (transaction IDs: " ++ w ++ ", " ++ d ++ ")", none) ∧
      calls .Refund outcome input = 0 := by
  simp [calls, trace, run_deposit_ok hW hD, transferComplete]

theorem completed_names_both_ids_witness :
    (run (scenario (.ok "W-1") (.ok "D-2") (.ok "R-3")) mainInput).1
        = ("Transfer complete (transaction IDs: W-1, D-2)", none) ∧
      calls .Refund (scenario (.ok "W-1") (.ok "D-2") (.ok "R-3")) mainInput = 0 :=
  completed_names_both_ids (scenario (.ok "W-1") (.ok "D-2") (.ok "R-3")) mainInput
    "W-1" "D-2" rfl rfl

/-- C6: in every run, for every combination of terminal step outcomes, the
steps are invoked in the order Withdraw, Deposit, Refund (the trace is an
initial segment of that sequence), each at most once; Deposit is invoked if and
only if Withdraw succeeded, and Refund if and only if Withdraw succeeded and
Deposit terminally failed. -/
theorem steps_sequential_at_most_once (outcome : Outcomes) (input : PaymentDetails) :
    trace outcome input <+: [.Withdraw, .Deposit, .Refund] ∧
      (∀ a, calls a outcome input ≤ 1) ∧
      (.Deposit ∈ trace outcome input ↔ ∃ w, outcome .Withdraw input = .ok w) ∧
      (.Refund ∈ trace outcome input ↔
        (∃ w, outcome .Withdraw input = .ok w) ∧ ∃ d, outcome .Deposit input = .error d) := by
  rcases hW : outcome .Withdraw input with e | w
  · refine ⟨?_, ?_, ?_, ?_⟩
    · simp only [trace, run_withdraw_error hW, List.map]; decide
    · intro a; cases a <;> simp [calls, trace, run_withdraw_error hW]
    · simp [trace, run_withdraw_error hW]
    · simp [trace, run_withdraw_error hW]
  · rcases hD : outcome .Deposit input with d | d
    · rcases hR : outcome .Refund input with r | r
      · refine ⟨?_, ?_, ?_, ?_⟩
        · simp only [trace, run_refund_error hW hD hR, List.map]; decide
        · intro a; cases a <;> simp [calls, trace, run_refund_error hW hD hR]
        · simp [trace, run_refund_error hW hD hR]
        · simp [trace, run_refund_error hW hD hR]
      · refine ⟨?_, ?_, ?_, ?_⟩
        · simp only [trace, run_refund_ok hW hD hR, List.map]; decide
        · intro a; cases a <;> simp [calls, trace, run_refund_ok hW hD hR]
        · simp [trace, run_refund_ok hW hD hR]
        · simp [trace, run_refund_ok hW hD hR]
    · refine ⟨?_, ?_, ?_, ?_⟩
      · simp only [trace, run_deposit_ok hW hD, List.map]; decide
      · intro a; cases a <;> simp [calls, trace, run_deposit_ok hW hD]
      · simp [trace, run_deposit_ok hW hD]
      · simp [trace, run_deposit_ok hW hD]

/-- C9: when Withdraw succeeds, Deposit terminally fails and Refund succeeds,
the message of the returned error contains the target account identifier, the
source account identifier and the statement "Money returned to SOURCE"; for the
request of start/main.go it names "43-812" and "85-150". -/
theorem compensated_message_names_accounts (outcome : Outcomes) (input : PaymentDetails)
    (w r : String) (d : GoError) (hW : outcome .Withdraw input = .ok w)
    (hD : outcome .Deposit input = .error d) (hR : outcome .Refund input = .ok r) :
    ∃ err, (run outcome input).1 = ("", some err) ∧
      Contains err.Error input.TargetAccount ∧ Contains err.Error input.SourceAccount ∧
      Contains err.Error ("Money returned to " ++ input.SourceAccount) ∧
      (input = mainInput → Contains err.Error "43-812" ∧ Contains err.Error "85-150") := by
  have hT : Contains (depositFailedError input d).Error input.TargetAccount :=
    ⟨"Deposit: failed to deposit money into ".data,
      (": Money returned to " ++ input.SourceAccount ++ ": " ++ d.Error).data,
      by simp [depositFailedError, GoError.Error, String.data_append]⟩
  have hS : Contains (depositFailedError input d).Error input.SourceAccount :=
    ⟨("Deposit: failed to deposit money into " ++ input.TargetAccount ++
        ": Money returned to ").data,
      (": " ++ d.Error).data,
      by simp [depositFailedError, GoError.Error, String.data_append]⟩
  refine ⟨depositFailedError input d, ?_, hT, hS, ?_, ?_⟩
  · rw [run_refund_ok hW hD hR]
  · exact ⟨("Deposit: failed to deposit money into " ++ input.TargetAccount ++ ": ").data,
      (": " ++ d.Error).data,
      by simp [depositFailedError, GoError.Error, String.data_append]⟩
  · intro h
    subst h
    exact ⟨hT, hS⟩

theorem compensated_message_names_accounts_witness :
    ∃ err, (run (scenario (.ok "W-1") (.error insufficientFunds) (.ok "R-1")) mainInput).1
        = ("", some err) ∧
      Contains err.Error mainInput.TargetAccount ∧ Contains err.Error mainInput.SourceAccount ∧
      Contains err.Error ("Money returned to " ++ mainInput.SourceAccount) ∧
      (mainInput = mainInput → Contains err.Error "43-812" ∧ Contains err.Error "85-150") :=
  compensated_message_names_accounts
    (scenario (.ok "W-1") (.error insufficientFunds) (.ok "R-1")) mainInput "W-1" "R-1"
    insufficientFunds rfl rfl rfl

/-- C10: for every request, deposit error `d` and refund error `r`, the error
message returned when Refund fails with `r` differs from the error message
returned, for the same request and the same `d`, when Refund succeeds. -/
theorem double_failure_message_distinct (failed compensated : Outcomes) (input : PaymentDetails)
    (w1 w2 id : String) (d r : GoError)
    (hW1 : failed .Withdraw input = .ok w1) (hD1 : failed .Deposit input = .error d)
    (hR1 : failed .Refund input = .error r)
    (hW2 : compensated .Withdraw input = .ok w2) (hD2 : compensated .Deposit input = .error d)
    (hR2 : compensated .Refund input = .ok id) :
    ∃ e1 e2, (run failed input).1 = ("", some e1) ∧ (run compensated input).1 = ("", some e2) ∧
      e1.Error ≠ e2.Error := by
  refine ⟨refundFailedError input d r, depositFailedError input d, ?_, ?_, ?_⟩
  · rw [run_refund_error hW1 hD1 hR1]
  · rw [run_refund_ok hW2 hD2 hR2]
  · intro h
    have hlen := congrArg String.length h
    simp only [refundFailedError, depositFailedError, GoError.Error, String.length_append] at hlen
    have c1 : ". Money could not be returned to ".length = 33 := by decide
    have c2 : ": Money returned to ".length = 20 := by decide
    have c3 : ": ".length = 2 := by decide
    omega

theorem double_failure_message_distinct_witness :
    ∃ e1 e2,
      (run (scenario (.ok "W-1") (.error insufficientFunds) (.error unavailable)) mainInput).1
        = ("", some e1) ∧
      (run (scenario (.ok "W-1") (.error insufficientFunds) (.ok "R-1")) mainInput).1
        = ("", some e2) ∧
      e1.Error ≠ e2.Error :=
  double_failure_message_distinct
    (scenario (.ok "W-1") (.error insufficientFunds) (.error unavailable))
    (scenario (.ok "W-1") (.error insufficientFunds) (.ok "R-1")) mainInput "W-1" "W-1" "R-1"
    insufficientFunds unavailable rfl rfl rfl rfl rfl rfl

/-! ## Properties of the retry policy -/

section retry_lemmas

theorem nextInterval_retrypolicy (i : Nat) :
    nextInterval retrypolicy i = min (i * 2) (100 * Second) := by
  have h : ((i : ℚ) * 2) = ((i * 2 : ℕ) : ℚ) := by push_cast; ring
  simp only [nextInterval, retrypolicy, h, Nat.floor_natCast]

theorem nextInterval_capped_pow (k : Nat) :
    nextInterval retrypolicy (min (2 ^ k) 100 * Second) = min (2 ^ (k + 1)) 100 * Second := by
  rw [nextInterval_retrypolicy, pow_succ]
  simp only [Second]
  omega

theorem attemptsExhausted_retrypolicy (n : Nat) : attemptsExhausted retrypolicy n = false := by
  simp [attemptsExhausted, retrypolicy]

theorem retryLoop_always_retryable (attempt : Nat → Except GoError String)
    (h : AlwaysRetryable retrypolicy attempt) :
    ∀ fuel n k waits,
      retryLoop retrypolicy attempt fuel (n + 1) (min (2 ^ k) 100 * Second) waits =
        .retrying (n + fuel)
          (waits ++ (List.range fuel).map fun j => min (2 ^ (k + j)) 100 * Second) := by
  intro fuel
  induction fuel with
  | zero => intro n k waits; simp [retryLoop]
  | succ fuel ih =>
    intro n k waits
    obtain ⟨e, he, hk⟩ := h (n + 1)
    rw [retryLoop, he]
    simp only [hk, if_false, attemptsExhausted_retrypolicy, Bool.false_eq_true]
    rw [nextInterval_capped_pow, ih (n + 1) (k + 1)]
    simp only [List.range_succ_eq_map, List.map_cons, List.map_map, List.append_assoc,
      List.singleton_append, Nat.add_zero]
    have e1 : n + 1 + fuel = n + (fuel + 1) := by omega
    have e2 : ∀ j, k + 1 + j = k + (j + 1) := fun j => by omega
    simp only [e1, e2]
    rfl

theorem retryLoop_attempts_ge (p : RetryPolicy) (attempt : Nat → Except GoError String) :
    ∀ fuel n interval waits, n ≤ (retryLoop p attempt (fuel + 1) n interval waits).attempts := by
  intro fuel
  induction fuel with
  | zero =>
    intro n interval waits
    rw [retryLoop]
    split
    · simp [RetryRun.attempts]
    · split
      · simp [RetryRun.attempts]
      · split
        · simp [RetryRun.attempts]
        · simp [retryLoop, RetryRun.attempts]
  | succ fuel ih =>
    intro n interval waits
    rw [retryLoop]
    split
    · simp [RetryRun.attempts]
    · split
      · simp [RetryRun.attempts]
      · split
        · simp [RetryRun.attempts]
        · exact Nat.le_of_succ_le (ih (n + 1) _ _)

end retry_lemmas

/-- C7: under the retry policy the workflow attaches to every step (initial
interval 1 s, coefficient 2.0, maximum interval 100 s, maximum attempts 0), a
step whose every attempt fails with a retryable error is still retrying after
any number of attempts, and the wait before retry n (n ≥ 1) is
min(2^(n-1), 100) seconds: 1, 2, 4, 8, 16, 32, 64, 100, 100, ... -/
theorem backoff_doubles_to_cap_and_never_stops (attempt : Nat → Except GoError String)
    (h : AlwaysRetryable retrypolicy attempt) (fuel : Nat) :
    (retrypolicy.InitialInterval = 1 * Second ∧ retrypolicy.BackoffCoefficient = 2 ∧
        retrypolicy.MaximumInterval = 100 * Second ∧ retrypolicy.MaximumAttempts = 0) ∧
      options.Policy = some retrypolicy ∧
      executeWithRetry retrypolicy attempt fuel =
        .retrying fuel ((List.range fuel).map fun j => min (2 ^ j) 100 * Second) ∧
      (∀ n, 1 ≤ n → n ≤ fuel →
        (executeWithRetry retrypolicy attempt fuel).waits[n - 1]? =
          some (min (2 ^ (n - 1)) 100 * Second)) ∧
      (executeWithRetry retrypolicy attempt 9).waits =
        [1 * Second, 2 * Second, 4 * Second, 8 * Second, 16 * Second, 32 * Second, 64 * Second,
          100 * Second, 100 * Second] := by
  have key : ∀ f, executeWithRetry retrypolicy attempt f =
      .retrying f ((List.range f).map fun j => min (2 ^ j) 100 * Second) := by
    intro f
    have := retryLoop_always_retryable attempt h f 0 0 []
    simpa [executeWithRetry, retrypolicy] using this
  refine ⟨⟨by simp [retrypolicy], rfl, rfl, rfl⟩, rfl, key fuel, ?_, ?_⟩
  · intro n h1 hn
    rw [key fuel]
    simp only [RetryRun.waits, List.getElem?_map]
    rw [List.getElem?_range (by omega)]
    rfl
  · rw [key 9]
    have hr : List.range 9 = [0, 1, 2, 3, 4, 5, 6, 7, 8] := by decide
    simp only [RetryRun.waits, hr, List.map_cons, List.map_nil]
    norm_num

theorem backoff_doubles_to_cap_and_never_stops_witness :
    AlwaysRetryable retrypolicy alwaysUnavailable ∧
      executeWithRetry retrypolicy alwaysUnavailable 9 =
        .retrying 9 ((List.range 9).map fun j => min (2 ^ j) 100 * Second) ∧
      (executeWithRetry retrypolicy alwaysUnavailable 9).waits =
        [1 * Second, 2 * Second, 4 * Second, 8 * Second, 16 * Second, 32 * Second, 64 * Second,
          100 * Second, 100 * Second] :=
  have h : AlwaysRetryable retrypolicy alwaysUnavailable :=
    fun _ => ⟨unavailable, rfl, by decide⟩
  ⟨h, (backoff_doubles_to_cap_and_never_stops alwaysUnavailable h 9).2.2.1,
    (backoff_doubles_to_cap_and_never_stops alwaysUnavailable h 9).2.2.2.2⟩

/-- C8: the non-retryable set of the retry policy is exactly
{InvalidAccountError, InsufficientFundsError}; every invocation the workflow
makes, of Withdraw, Deposit or Refund, carries that policy; under it a failure
of either kind on the first attempt ends the step after that single attempt
with that failure as the terminal outcome, and a failure of any other kind on
the first attempt is followed by a wait of the initial interval and a second
attempt. -/
theorem non_retryable_kinds_end_step_at_once :
    retrypolicy.NonRetryableErrorTypes = ["InvalidAccountError", "InsufficientFundsError"] ∧
      (∀ (outcome : Outcomes) (input : PaymentDetails) (inv : Invocation),
        inv ∈ (run outcome input).2 → inv.opts.Policy = some retrypolicy) ∧
      (∀ (input : PaymentDetails) (a : Activity),
        ⟨a, options, input⟩ ∈
          (run (scenario (.ok "W") (.error unavailable) (.ok "R")) input).2) ∧
      (∀ (attempt : Nat → Except GoError String) (e : GoError) (fuel : Nat),
        attempt 1 = .error e →
        (e.kind = "InvalidAccountError" ∨ e.kind = "InsufficientFundsError") →
        executeWithRetry retrypolicy attempt (fuel + 1) = .returned (.error e) 1 []) ∧
      (∀ (attempt : Nat → Except GoError String) (e : GoError) (fuel : Nat),
        attempt 1 = .error e →
        ¬ (e.kind = "InvalidAccountError" ∨ e.kind = "InsufficientFundsError") →
        executeWithRetry retrypolicy attempt (fuel + 2) =
            retryLoop retrypolicy attempt (fuel + 1) 2 (2 * Second) [1 * Second] ∧
          2 ≤ (executeWithRetry retrypolicy attempt (fuel + 2)).attempts) := by
  refine ⟨rfl, ?_, ?_, ?_, ?_⟩
  · intro outcome input inv hinv
    have hopt : inv.opts = options := by
      rcases hW : outcome .Withdraw input with e | w
      · rw [run_withdraw_error hW] at hinv
        simp at hinv
        rw [hinv]
      · rcases hD : outcome .Deposit input with d | d
        · rcases hR : outcome .Refund input with r | r
          · rw [run_refund_error hW hD hR] at hinv
            simp at hinv
            rcases hinv with h | h | h <;> rw [h]
          · rw [run_refund_ok hW hD hR] at hinv
            simp at hinv
            rcases hinv with h | h | h <;> rw [h]
        · rw [run_deposit_ok hW hD] at hinv
          simp at hinv
          rcases hinv with h | h <;> rw [h]
    rw [hopt]
    rfl
  · intro input a
    rw [@run_refund_ok (scenario (.ok "W") (.error unavailable) (.ok "R")) input "W" "R"
      unavailable rfl rfl rfl]
    cases a <;> simp
  · intro attempt e fuel he hk
    have hmem : e.kind ∈ retrypolicy.NonRetryableErrorTypes := by
      simpa [retrypolicy] using hk
    rw [executeWithRetry, retryLoop, he]
    simp only [hmem, if_true]
  · intro attempt e fuel he hk
    have hmem : e.kind ∉ retrypolicy.NonRetryableErrorTypes := by
      simpa [retrypolicy] using hk
    have hstep : executeWithRetry retrypolicy attempt (fuel + 2) =
        retryLoop retrypolicy attempt (fuel + 1) 2 (2 * Second) [1 * Second] := by
      rw [executeWithRetry, retryLoop, he]
      simp only [hmem, if_false, attemptsExhausted_retrypolicy, Bool.false_eq_true]
      rw [nextInterval_retrypolicy]
      simp [retrypolicy, Second]
    exact ⟨hstep, by rw [hstep]; exact retryLoop_attempts_ge _ _ _ _ _ _⟩

theorem non_retryable_kinds_end_step_at_once_witness :
    failsOnce insufficientFunds 1 = .error insufficientFunds ∧
      executeWithRetry retrypolicy (failsOnce insufficientFunds) 5
        = .returned (.error insufficientFunds) 1 [] ∧
      failsOnce unavailable 1 = .error unavailable ∧
      2 ≤ (executeWithRetry retrypolicy (failsOnce unavailable) 5).attempts :=
  ⟨rfl,
    non_retryable_kinds_end_step_at_once.2.2.2.1 (failsOnce insufficientFunds) insufficientFunds 4
      rfl (Or.inr rfl),
    rfl,
    (non_retryable_kinds_end_step_at_once.2.2.2.2 (failsOnce unavailable) unavailable 3
      rfl (by decide)).2⟩

/-- C5, as stated, fails: on the valid request of start/main.go, when Withdraw
and Deposit both succeed with the empty identifier the Completed result names
two empty, equal identifiers, and when both succeed with "TX" it names two
equal ones; so it is not the case that the identifiers in every Completed
result are non-empty and distinct. -/
theorem completed_ids_empty_or_equal :
    mainInput.Valid ∧
      (run (scenario (.ok "") (.ok "") (.ok "")) mainInput).1
        = ("Transfer complete (transaction IDs: , )", none) ∧
      (run (scenario (.ok "TX") (.ok "TX") (.ok "R")) mainInput).1
        = ("Transfer complete (transaction IDs: TX, TX)", none) ∧
      ¬ ∀ (outcome : Outcomes) (input : PaymentDetails) (w d : String),
          input.Valid → outcome .Withdraw input = .ok w → outcome .Deposit input = .ok d →
          (run outcome input).1 = (transferComplete w d, none) ∧ w ≠ "" ∧ d ≠ "" ∧ w ≠ d := by
  refine ⟨by decide, by decide, by decide, ?_⟩
  intro h
  have h1 := h (scenario (.ok "") (.ok "") (.ok "")) mainInput "" "" (by decide) rfl rfl
  exact h1.2.1 rfl

/-- C5, amended: for every valid request for which Withdraw succeeds with id
`w` and Deposit succeeds with id `d`, the workflow invokes Withdraw and then
Deposit, once each, and the two identifiers in its Completed result are exactly
`w` and `d`, unchanged and in that order. -/
theorem completed_ids_are_step_ids (outcome : Outcomes) (input : PaymentDetails) (w d : String)
    (_hvalid : input.Valid) (hW : outcome .Withdraw input = .ok w)
    (hD : outcome .Deposit input = .ok d) :
    trace outcome input = [.Withdraw, .Deposit] ∧
      ∃ id1 id2, (run outcome input).1
          = ("Transfer complete (transaction IDs: " ++ id1 ++ ", " ++ id2 ++ ")", none) ∧
        id1 = w ∧ id2 = d := by
  refine ⟨?_, w, d, ?_, rfl, rfl⟩
  · simp [trace, run_deposit_ok hW hD]
  · simp [run_deposit_ok hW hD, transferComplete]

theorem completed_ids_are_step_ids_witness :
    mainInput.Valid ∧
      trace (scenario (.ok "W-7") (.ok "D-8") (.ok "R-9")) mainInput = [.Withdraw, .Deposit] ∧
      ∃ id1 id2, (run (scenario (.ok "W-7") (.ok "D-8") (.ok "R-9")) mainInput).1
          = ("Transfer complete (transaction IDs: " ++ id1 ++ ", " ++ id2 ++ ")", none) ∧
        id1 = "W-7" ∧ id2 = "D-8" :=
  ⟨by decide,
    completed_ids_are_step_ids (scenario (.ok "W-7") (.ok "D-8") (.ok "R-9")) mainInput
      "W-7" "D-8" (by decide) rfl rfl⟩

end app
